import Mathlib

/-!
Verification of the Curiosity MAAS weather gateway (`app.py`).

Shallow embedding conventions:
* JSON values are modelled by `JVal`; Python's `int`/`float` distinction is kept
  (`JVal.int` vs `JVal.float`), floats being modelled as exact rationals.
* Python dicts are association lists with first-match lookup.
* Wall-clock time (`time.time()`) is an `Int` parameter threaded explicitly.
* HTTP calls (`requests.get`/`requests.post`) are oracles passed as arguments:
  `String → Except String JVal` for the upstream MAAS fetch
  (`.error e` models a raised `requests.RequestException` with message `e`),
  and `Except Unit JVal` for the LLM POST (`.ok body` models a 2xx response
  whose body JSON-decodes to `body`; `.error ()` models any network error,
  non-2xx status, or JSON-decode failure, all of which raise in the source).
* Fallible Python code (raising) is modelled with `Option`/`Except`.
-/

attribute [local semireducible] Rat.mul Rat.inv Rat.add Rat.sub Rat.ofScientific

/-- A JSON value as produced by Python's `json` module: `None`, `bool`, `int`,
`float` (modelled as an exact rational), `str`, `list`, `dict`. -/
inductive JVal where
  | null : JVal
  | bool : Bool → JVal
  | int : Int → JVal
  | float : Rat → JVal
  | str : String → JVal
  | arr : List JVal → JVal
  | obj : List (String × JVal) → JVal

/-- Python truthiness of a JSON value: `None`, `False`, `0`, `0.0`, `""`,
`[]`, `{}` are falsy, everything else truthy. -/
def truthy : JVal → Bool
  | .null => false
  | .bool b => b
  | .int n => !(n == 0)
  | .float q => !(q == 0)
  | .str s => !(s == "")
  | .arr xs => !xs.isEmpty
  | .obj kvs => !kvs.isEmpty

/-- Python `d.get(k)`: the value stored under `k`, or `None` when absent
(a JSON `null` stored under `k` and an absent `k` both yield `None`). -/
def pyGet (d : List (String × JVal)) (k : String) : JVal :=
  (List.lookup k d).getD .null

/-- Subscript/`get` access on a `JVal` known by its callers to be a dict. -/
def objGet (v : JVal) (k : String) : JVal :=
  match v with
  | .obj kvs => pyGet kvs k
  | _ => .null

/-- Little-endian base-10 digits of `n`, with explicit fuel so that the
definition is structural (and hence kernel-reducible). -/
def natDigitsAux : Nat → Nat → List Nat
  | 0, _ => []
  | _ + 1, 0 => []
  | f + 1, n => n % 10 :: natDigitsAux f (n / 10)

/-- Little-endian base-10 digits of `n` (empty for `0`). -/
def natDigits (n : Nat) : List Nat := natDigitsAux n n

/-- Reassemble a number from its little-endian digit list. -/
def digitsVal (ds : List Nat) : Nat := ds.foldr (fun d a => d + 10 * a) 0

/-- Python `str` of a non-negative integer: decimal digits, no sign. -/
def pyNatStr (n : Nat) : String :=
  if n = 0 then "0" else (((natDigits n).reverse).map Nat.digitChar).asString

/-- Python `str` of an integer. -/
def pyIntStr (n : Int) : String :=
  if n < 0 then "-" ++ pyNatStr n.natAbs else pyNatStr n.natAbs

/-- `True` for ASCII decimal digits. -/
def isDig (c : Char) : Bool := c.isDigit

/-- Strip leading and trailing whitespace from a character list. -/
def stripWs (cs : List Char) : List Char :=
  (((cs.dropWhile Char.isWhitespace).reverse).dropWhile Char.isWhitespace).reverse

/-- Python `s.strip()` with no arguments: surrounding whitespace removed. -/
def pyStrip (s : String) : String := (stripWs s.toList).asString

/-- Numeric value of a list of ASCII digit characters, most significant first. -/
def digitCharsVal (ds : List Char) : Nat :=
  ds.foldl (fun a c => a * 10 + (c.toNat - 48)) 0

/-- Parse the optional exponent suffix of a Python float literal and apply it
to the already-parsed mantissa. -/
def parseExpPart (mant : Rat) (r : List Char) : Option Rat :=
  match r with
  | [] => some mant
  | c :: r2 =>
    if c = 'e' ∨ c = 'E' then
      let sr : Int × List Char :=
        match r2 with
        | '+' :: t => (1, t)
        | '-' :: t => (-1, t)
        | t => (1, t)
      let ed := sr.2.takeWhile isDig
      let r4 := sr.2.dropWhile isDig
      if ed.isEmpty ∨ !r4.isEmpty then none
      else
        let k := digitCharsVal ed
        some (if sr.1 < 0 then mant / (10 : Rat) ^ k else mant * (10 : Rat) ^ k)
    else none

/-- Python `float(s)` on a string: strips surrounding whitespace, then accepts
`[sign] (digits [. digits] | . digits) [(e|E) [sign] digits]`, yielding the
exact rational value. Non-finite literals (`inf`, `nan`) and underscore
separators are outside the modelled domain and yield `none`. -/
def parsePyFloat (s : String) : Option Rat :=
  let cs := stripWs s.toList
  let sc : Int × List Char :=
    match cs with
    | '+' :: t => (1, t)
    | '-' :: t => (-1, t)
    | t => (1, t)
  let ip := sc.2.takeWhile isDig
  let r1 := sc.2.dropWhile isDig
  let mag : Option Rat :=
    match r1 with
    | '.' :: r2 =>
      let fp := r2.takeWhile isDig
      let r3 := r2.dropWhile isDig
      if ip.isEmpty && fp.isEmpty then none
      else parseExpPart ((digitCharsVal (ip ++ fp) : Rat) / (10 : Rat) ^ fp.length) r3
    | _ => if ip.isEmpty then none else parseExpPart (digitCharsVal ip : Rat) r1
  mag.map (fun q => (sc.1 : Rat) * q)

/-- `to_float` from `_normalize_maas` (app.py lines 48-52): Python
`float(x)` with every exception mapped to `None`. `float` succeeds on ints,
floats, bools and parseable strings, and raises on `None`, lists, dicts and
unparseable strings. -/
def to_float (x : JVal) : Option Rat :=
  match x with
  | .null => none
  | .bool b => some (if b then 1 else 0)
  | .int n => some (n : Rat)
  | .float q => some q
  | .str s => parsePyFloat s
  | .arr _ => none
  | .obj _ => none

/-- Wrap an optional coercion result back into a JSON value (`None` for
failure), as storing `to_float`'s result in the output dict does. -/
def ofOptFloat : Option Rat → JVal
  | some q => .float q
  | none => .null

/-- `_normalize_maas` (app.py lines 46-71): the fixed-shape normalized
weather record built from the raw MAAS dict. -/
def normalize_maas (d : List (String × JVal)) : List (String × JVal) :=
  [("source", .str "curiosity_rems_maas"),
   ("sol", pyGet d "sol"),
   ("earth_date", pyGet d "terrestrial_date"),
   ("season", pyGet d "season"),
   ("temperature_c", .obj
      [("min", ofOptFloat (to_float (pyGet d "min_temp"))),
       ("max", ofOptFloat (to_float (pyGet d "max_temp"))),
       ("min_gts", ofOptFloat (to_float (pyGet d "min_gts_temp"))),
       ("max_gts", ofOptFloat (to_float (pyGet d "max_gts_temp")))]),
   ("pressure_pa", ofOptFloat (to_float (pyGet d "pressure"))),
   ("pressure_qual", pyGet d "pressure_string"),
   ("sunrise_local", pyGet d "sunrise"),
   ("sunset_local", pyGet d "sunset"),
   ("uv_index", pyGet d "local_uv_irradiance_index"),
   ("atmo_opacity", pyGet d "atmo_opacity")]

/-- The in-memory cache `CACHE`: key ↦ (stored-at timestamp, value). -/
abbrev Cache := List (String × Int × JVal)

/-- `TTL` (app.py line 23). -/
def TTL : Int := 15 * 60

/-- `_get_cached` (app.py lines 25-32). Returns the fresh value (if any)
together with the cache after the lazy eviction side effect: a stale entry is
popped, a fresh lookup leaves the cache unchanged. -/
def get_cached (now : Int) (c : Cache) (key : String) : Option JVal × Cache :=
  match List.lookup key c with
  | none => (none, c)
  | some (t, v) =>
    if now - t > TTL then (none, c.filter (fun e => !(e.1 == key)))
    else (some v, c)

/-- `_set_cached` (app.py lines 34-35): store `v` under `key` with the
current timestamp, replacing any previous entry. -/
def set_cached (now : Int) (c : Cache) (key : String) (v : JVal) : Cache :=
  (key, now, v) :: c.filter (fun e => !(e.1 == key))

/-- Smallest power of ten clearing the denominator of `q` (up to 30), i.e.
the number of decimal places of a decimally-representable rational. -/
def decExp (q : Rat) : Option Nat :=
  (List.range 31).find? (fun k => (q * (10 : Rat) ^ k).den == 1)

/-- Python `str`/`repr` of a float, for floats whose exact value is a decimal
fraction: `-70.0`, `0.5`, `870.25`. (Python's scientific notation for very
large/small magnitudes and its shortest-roundtrip search are outside the
modelled domain, as are rationals that are not decimal fractions.) -/
def pyFloatStr (q : Rat) : String :=
  match decExp q with
  | some 0 => pyIntStr q.num ++ ".0"
  | some (k + 1) =>
    let m := (q * (10 : Rat) ^ (k + 1)).num
    let ds := pyNatStr m.natAbs
    let l := if ds.length ≤ k + 1 then List.replicate (k + 2 - ds.length) '0' ++ ds.toList else ds.toList
    (if m < 0 then "-" else "")
      ++ (l.take (l.length - (k + 1))).asString ++ "." ++ (l.drop (l.length - (k + 1))).asString
  | none => pyIntStr q.num ++ "/" ++ pyNatStr q.den

mutual

/-- Python `repr` of a JSON value (what `str` shows for values nested inside
containers): `None`, `True`, quoted strings, `[...]`, and dicts rendered with
single-quoted keys. String escaping inside quotes is not modelled. -/
def pyRepr : JVal → String
  | .null => "None"
  | .bool true => "True"
  | .bool false => "False"
  | .int n => pyIntStr n
  | .float q => pyFloatStr q
  | .str s => "\x27" ++ s ++ "\x27"
  | .arr xs => "[" ++ pyReprArr xs ++ "]"
  | .obj kvs => "\x7b" ++ pyReprObj kvs ++ "\x7d"

/-- Comma-separated `repr`s of the elements of a list. -/
def pyReprArr : List JVal → String
  | [] => ""
  | [x] => pyRepr x
  | x :: xs => pyRepr x ++ ", " ++ pyReprArr xs

/-- Comma-separated `'key': repr(value)` pairs of a dict. -/
def pyReprObj : List (String × JVal) → String
  | [] => ""
  | [(k, v)] => "\x27" ++ k ++ "\x27: " ++ pyRepr v
  | (k, v) :: kvs => "\x27" ++ k ++ "\x27: " ++ pyRepr v ++ ", " ++ pyReprObj kvs

end

/-- Python `str` of a JSON value, as interpolated by an f-string: like `repr`
but a top-level string renders bare. -/
def pyInterp (v : JVal) : String :=
  match v with
  | .str s => s
  | v => pyRepr v

/-- Round-half-even to an integer: the rounding Python's fixed-point float
formatting performs (applied here to the exact rational value, whereas Python
applies it to the nearest binary double). -/
def rhe (q : Rat) : Int :=
  let f := q.floor
  let r := q - (f : Rat)
  if r < 1 / 2 then f
  else if 1 / 2 < r then f + 1
  else if f % 2 == 0 then f else f + 1

/-- Python `f"{q:.1f}"`: fixed-point rendering with one decimal digit. -/
def fmt1 (q : Rat) : String :=
  let m := rhe (q * 10)
  (if m < 0 then "-" else "") ++ pyNatStr (m.natAbs / 10) ++ "." ++ pyNatStr (m.natAbs % 10)

/-- Python `f"{q:.0f}"`: fixed-point rendering with no decimal digits. -/
def fmt0 (q : Rat) : String := pyIntStr (rhe q)

/-- Read a numeric field of the normalized record back as a rational
(`None` ↦ absent). Callers only apply this to fields `_normalize_maas`
produced via `to_float`, which are floats or `None`. -/
def asFloat? (v : JVal) : Option Rat :=
  match v with
  | .float q => some q
  | .int n => some (n : Rat)
  | _ => none

/-- `_format_brief` (app.py lines 123-149): the deterministic no-LLM
fallback summary built from a normalized payload. -/
def format_brief (d : JVal) : String :=
  if !truthy d then "No data." else
  let sol := objGet d "sol"
  let day := objGet d "earth_date"
  let t := if truthy (objGet d "temperature_c") then objGet d "temperature_c" else .obj []
  let tmin := asFloat? (objGet t "min")
  let tmax := asFloat? (objGet t "max")
  let press := asFloat? (objGet d "pressure_pa")
  let season := objGet d "season"
  let uv := objGet d "uv_index"
  let sky := objGet d "atmo_opacity"
  let parts := ["Mars (Curiosity/REMS) — Sol " ++ pyInterp sol ++ " (" ++ pyInterp day ++ ")."]
  let parts := parts ++
    (match tmin, tmax with
     | some a, some b => ["Temp: " ++ fmt1 a ++ "°C to " ++ fmt1 b ++ "°C."]
     | some a, none => ["Temp: min " ++ pyFloatStr a ++ "°C, max ?°C."]
     | none, some b => ["Temp: min ?°C, max " ++ pyFloatStr b ++ "°C."]
     | none, none => [])
  let parts := parts ++ (match press with
     | some p => ["Pressure: " ++ fmt0 p ++ " Pa."]
     | none => [])
  let parts := parts ++ (if truthy season then ["Season: " ++ pyInterp season ++ "."] else [])
  let parts := parts ++ (if truthy sky then ["Atmospheric opacity: " ++ pyInterp sky ++ "."] else [])
  let parts := parts ++ (if truthy uv then ["UV Index: " ++ pyInterp uv ++ "."] else [])
  String.intercalate " " parts

/-- `_prompt_from_weather` (app.py lines 151-158): the dedented, stripped
prompt with the normalized dict interpolated. -/
def prompt_from_weather (d : JVal) : String :=
  "You are a concise science reporter. Summarise the Curiosity/REMS weather for a general audience in 2–3 sentences.\nInclude Sol number and Earth date; mention temperatures in °C (range), pressure in Pa (if present), season and sky/opacity if present.\nAvoid speculation and do not invent numbers.\nData (JSON):\n" ++ pyInterp d

/-- The three LLM environment variables (`LLM_API_URL`, `LLM_API_KEY`,
`LLM_MODEL`); `none` models an unset variable. -/
structure LlmCfg where
  apiUrl : Option String
  apiKey : Option String
  model : Option String

/-- Python truthiness of `os.getenv`'s result: unset (`None`) and the empty
string are both falsy. -/
def optTruthy : Option String → Bool
  | none => false
  | some s => !(s == "")

/-- The configuration guard of `_call_llm` (app.py line 169):
`api_url and api_key and model` all truthy. -/
def llmConfigured (cfg : LlmCfg) : Bool :=
  optTruthy cfg.apiUrl && optTruthy cfg.apiKey && optTruthy cfg.model

/-- The two ways `_call_llm` raises: the explicit `RuntimeError` when
configuration is incomplete, and any exception from the POST /
`raise_for_status` / JSON decode. -/
inductive LlmErr where
  | notConfigured : LlmErr
  | httpError : LlmErr

/-- `data["choices"][0]["message"]["content"].strip()` (app.py line 185):
`some` of the stripped content when every step succeeds, `none` when any
subscript or the `.strip()` raises (missing key, empty list, wrong type). -/
def extractContent (data : JVal) : Option String :=
  match data with
  | .obj kvs =>
    match List.lookup "choices" kvs with
    | some (.arr (.obj m :: _)) =>
      match List.lookup "message" m with
      | some (.obj mm) =>
        match List.lookup "content" mm with
        | some (.str s) => some (pyStrip s)
        | _ => none
      | _ => none
    | _ => none
  | _ => none

/-- `_call_llm` (app.py lines 160-187). `post` is the oracle for the HTTP
POST: `.error ()` models a raised exception (network failure, non-2xx status
via `raise_for_status`, or a JSON-decode failure in `r.json()`); `.ok data`
models a parsed response body. On a parsed body lacking the expected content
the source returns `str(data)` normally — it does not raise. -/
def call_llm (cfg : LlmCfg) (_prompt : String) (post : Except Unit JVal) : Except LlmErr String :=
  if !llmConfigured cfg then .error .notConfigured
  else
    match post with
    | .error _ => .error .httpError
    | .ok data =>
      match extractContent data with
      | some s => .ok s
      | none => .ok (pyInterp data)

/-- A raised `fastapi.HTTPException` (status code and detail message);
status 500 stands for the framework's response to an uncaught exception. -/
structure HError where
  status : Nat
  detail : String

/-- The cache key of `/weather/{sol}` (app.py line 96): `f"sol:{sol}"`. -/
def keySol (sol : Nat) : String := "sol:" ++ pyNatStr sol

/-- The cache key of `/weather/latest` (app.py line 85). -/
def keyLatest : String := "latest"

/-- The fetch-normalize-store tail of `weather_latest` (app.py lines 89-92),
entered after a cache miss. A non-dict upstream JSON makes
`_normalize_maas(data)` raise `AttributeError`, which the framework turns
into a 500 response. -/
def weatherLatestFetch (now : Int) (c₁ : Cache) (upstream : String → Except String JVal) :
    Except HError JVal × Cache :=
  match upstream "/" with
  | .error e => (.error ⟨502, "Upstream MAAS error: " ++ e⟩, c₁)
  | .ok data =>
    match data with
    | .obj kvs =>
      let out := JVal.obj (normalize_maas kvs)
      (.ok out, set_cached now c₁ keyLatest out)
    | _ => (.error ⟨500, "Internal Server Error"⟩, c₁)

/-- `weather_latest` (app.py lines 83-92): serve a truthy fresh cache entry,
otherwise fetch, normalize, store. Returns the response together with the
final cache state. -/
def weather_latest (now : Int) (c : Cache) (upstream : String → Except String JVal) :
    Except HError JVal × Cache :=
  match get_cached now c keyLatest with
  | (some v, c₁) => if truthy v then (.ok v, c₁) else weatherLatestFetch now c₁ upstream
  | (none, c₁) => weatherLatestFetch now c₁ upstream

/-- The no-data test of `weather_by_sol` (app.py line 101):
`not data or (isinstance(data, dict) and data.get("error"))`. -/
def noData (data : JVal) : Bool :=
  !truthy data ||
    (match data with
     | .obj kvs => truthy (pyGet kvs "error")
     | _ => false)

/-- The fetch-check-normalize-store tail of `weather_by_sol` (app.py lines
100-105), entered after a cache miss. -/
def weatherBySolFetch (now : Int) (c₁ : Cache) (upstream : String → Except String JVal)
    (sol : Nat) : Except HError JVal × Cache :=
  match upstream ("/" ++ pyNatStr sol) with
  | .error e => (.error ⟨502, "Upstream MAAS error: " ++ e⟩, c₁)
  | .ok data =>
    if noData data then (.error ⟨404, "No data for sol " ++ pyNatStr sol⟩, c₁)
    else
      match data with
      | .obj kvs =>
        let out := JVal.obj (normalize_maas kvs)
        (.ok out, set_cached now c₁ (keySol sol) out)
      | _ => (.error ⟨500, "Internal Server Error"⟩, c₁)

/-- `weather_by_sol` (app.py lines 94-105). -/
def weather_by_sol (now : Int) (c : Cache) (upstream : String → Except String JVal)
    (sol : Nat) : Except HError JVal × Cache :=
  match get_cached now c (keySol sol) with
  | (some v, c₁) => if truthy v then (.ok v, c₁) else weatherBySolFetch now c₁ upstream sol
  | (none, c₁) => weatherBySolFetch now c₁ upstream sol

/-- The `{"mode": ..., "text": ...}` response of the AI brief endpoints. -/
structure Brief where
  mode : String
  text : String

/-- `ai_brief_latest` (app.py lines 189-195): the weather lookup runs
outside the `try`, so its `HTTPException` propagates; only exceptions raised
by `_call_llm` are absorbed into the fallback branch. -/
def ai_brief_latest (now : Int) (c : Cache) (cfg : LlmCfg)
    (upstream : String → Except String JVal) (post : Except Unit JVal) :
    Except HError Brief × Cache :=
  match weather_latest now c upstream with
  | (.error e, c₁) => (.error e, c₁)
  | (.ok d, c₁) =>
    match call_llm cfg (prompt_from_weather d) post with
    | .ok s => (.ok ⟨"llm", s⟩, c₁)
    | .error _ => (.ok ⟨"fallback", format_brief d⟩, c₁)

/-- `ai_brief_by_sol` (app.py lines 197-203). -/
def ai_brief_by_sol (now : Int) (c : Cache) (cfg : LlmCfg)
    (upstream : String → Except String JVal) (post : Except Unit JVal) (sol : Nat) :
    Except HError Brief × Cache :=
  match weather_by_sol now c upstream sol with
  | (.error e, c₁) => (.error e, c₁)
  | (.ok d, c₁) =>
    match call_llm cfg (prompt_from_weather d) post with
    | .ok s => (.ok ⟨"llm", s⟩, c₁)
    | .error _ => (.ok ⟨"fallback", format_brief d⟩, c₁)

/-- `p` is a prefix of the first list. -/
def hasPre : List Char → List Char → Bool
  | _, [] => true
  | [], _ :: _ => false
  | a :: l1, b :: l2 => a == b && hasPre l1 l2

/-- `p` occurs as a contiguous run somewhere in the first list. -/
def subAt : List Char → List Char → Bool
  | [], p => p.isEmpty
  | l@(_ :: t), p => hasPre l p || subAt t p

/-- Python's `needle in hay` on strings. -/
def strContains (hay needle : String) : Bool := subAt hay.toList needle.toList

/-- FastAPI's `int` path-parameter conversion, for non-negative digit-only
segments (the form the claims exercise): `"5"` and `"05"` both convert to the
integer `5`. -/
def parsePathNat (s : String) : Option Nat :=
  let cs := s.toList
  if !cs.isEmpty && cs.all isDig then some (digitCharsVal cs) else none

/-- The clause sequence of the fallback summary as the specification
describes it: the always-present leading clause, the two-bound or
one-bound temperature clause, then pressure, season, opacity and UV clauses
exactly when the corresponding field is non-null/truthy, in that fixed
order. `format_brief` is proved equal to these clauses joined by single
spaces. -/
def brief_clauses (d : JVal) : List String :=
  let tmin := asFloat? (objGet (objGet d "temperature_c") "min")
  let tmax := asFloat? (objGet (objGet d "temperature_c") "max")
  let press := asFloat? (objGet d "pressure_pa")
  let season := objGet d "season"
  let uv := objGet d "uv_index"
  let sky := objGet d "atmo_opacity"
  ["Mars (Curiosity/REMS) — Sol " ++ pyInterp (objGet d "sol") ++ " ("
      ++ pyInterp (objGet d "earth_date") ++ ")."]
  ++ (match tmin, tmax with
      | some a, some b => ["Temp: " ++ fmt1 a ++ "°C to " ++ fmt1 b ++ "°C."]
      | some a, none => ["Temp: min " ++ pyFloatStr a ++ "°C, max ?°C."]
      | none, some b => ["Temp: min ?°C, max " ++ pyFloatStr b ++ "°C."]
      | none, none => [])
  ++ (match press with
      | some p => ["Pressure: " ++ fmt0 p ++ " Pa."]
      | none => [])
  ++ (if truthy season then ["Season: " ++ pyInterp season ++ "."] else [])
  ++ (if truthy sky then ["Atmospheric opacity: " ++ pyInterp sky ++ "."] else [])
  ++ (if truthy uv then ["UV Index: " ++ pyInterp uv ++ "."] else [])

/-- `digitsVal` inverts `natDigitsAux` whenever the fuel suffices. -/
lemma natDigitsAux_val (f : Nat) : ∀ n : Nat, n ≤ f → digitsVal (natDigitsAux f n) = n := by
  induction f with
  | zero =>
    intro n h
    interval_cases n
    rfl
  | succ f ih =>
    intro n h
    cases n with
    | zero => rfl
    | succ m =>
      have hd : (m + 1) / 10 ≤ f := by
        have : (m + 1) / 10 < m + 1 := Nat.div_lt_self (Nat.succ_pos m) (by norm_num)
        omega
      have harm : natDigitsAux (f + 1) (m + 1) = (m + 1) % 10 :: natDigitsAux f ((m + 1) / 10) := rfl
      have : digitsVal ((m + 1) % 10 :: natDigitsAux f ((m + 1) / 10))
          = (m + 1) % 10 + 10 * digitsVal (natDigitsAux f ((m + 1) / 10)) := rfl
      rw [harm, this, ih _ hd, Nat.mod_add_div]

/-- `digitsVal` inverts `natDigits`. -/
lemma natDigits_val (n : Nat) : digitsVal (natDigits n) = n :=
  natDigitsAux_val n n le_rfl

/-- Every digit produced by `natDigitsAux` is below 10. -/
lemma natDigitsAux_lt (f : Nat) : ∀ n : Nat, ∀ x ∈ natDigitsAux f n, x < 10 := by
  induction f with
  | zero => intro n x hx; simp [natDigitsAux] at hx
  | succ f ih =>
    intro n x hx
    cases n with
    | zero => simp [natDigitsAux] at hx
    | succ m =>
      have harm : natDigitsAux (f + 1) (m + 1) = (m + 1) % 10 :: natDigitsAux f ((m + 1) / 10) := rfl
      rw [harm] at hx
      rcases List.mem_cons.mp hx with h | h
      · subst h; exact Nat.mod_lt _ (by norm_num)
      · exact ih _ x h

/-- `Nat.digitChar` is injective below 10. -/
lemma digitChar_inj_lt : ∀ a < 10, ∀ b < 10, Nat.digitChar a = Nat.digitChar b → a = b := by
  decide

/-- Mapping `Nat.digitChar` over lists of digits below 10 is injective. -/
lemma map_digitChar_inj : ∀ l1 l2 : List Nat, (∀ x ∈ l1, x < 10) → (∀ x ∈ l2, x < 10) →
    l1.map Nat.digitChar = l2.map Nat.digitChar → l1 = l2 := by
  intro l1
  induction l1 with
  | nil =>
    intro l2 _ _ h
    cases l2 with
    | nil => rfl
    | cons b t2 => simp at h
  | cons a t ih =>
    intro l2 h1 h2 h
    cases l2 with
    | nil => simp at h
    | cons b t2 =>
      simp only [List.map_cons, List.cons.injEq] at h
      have ha : a = b := digitChar_inj_lt a (h1 a (by simp)) b (h2 b (by simp)) h.1
      have ht : t = t2 := ih t2 (fun x hx => h1 x (by simp [hx])) (fun x hx => h2 x (by simp [hx])) h.2
      rw [ha, ht]

/-- Two character lists with the same `asString` are equal. -/
lemma asString_inj (l1 l2 : List Char) (h : l1.asString = l2.asString) : l1 = l2 :=
  congrArg String.data h

/-- The decimal rendering `pyNatStr` is injective. -/
lemma pyNatStr_inj (m n : Nat) (h : pyNatStr m = pyNatStr n) : m = n := by
  unfold pyNatStr at h
  by_cases hm : m = 0 <;> by_cases hn : n = 0
  · omega
  · exfalso
    rw [if_pos hm, if_neg hn] at h
    have h2 : (['0'] : List Char).asString = ((natDigits n).reverse.map Nat.digitChar).asString := h
    have hd := asString_inj _ _ h2
    have hmap : ([0] : List Nat).map Nat.digitChar = (natDigits n).reverse.map Nat.digitChar := by
      simpa using hd
    have hrev : ([0] : List Nat) = (natDigits n).reverse := by
      refine map_digitChar_inj _ _ ?_ ?_ hmap
      · simp
      · intro x hx; exact natDigitsAux_lt n n x (List.mem_reverse.mp hx)
    have hl : natDigits n = [0] := by
      have := congrArg List.reverse hrev
      simpa using this.symm
    have hv := natDigits_val n
    rw [hl] at hv
    simp [digitsVal] at hv
    exact hn hv.symm
  · exfalso
    rw [if_neg hm, if_pos hn] at h
    have h2 : ((natDigits m).reverse.map Nat.digitChar).asString = (['0'] : List Char).asString := h
    have hd := asString_inj _ _ h2
    have hmap : (natDigits m).reverse.map Nat.digitChar = ([0] : List Nat).map Nat.digitChar := by
      simpa using hd
    have hrev : (natDigits m).reverse = ([0] : List Nat) := by
      refine map_digitChar_inj _ _ ?_ ?_ hmap
      · intro x hx; exact natDigitsAux_lt m m x (List.mem_reverse.mp hx)
      · simp
    have hl : natDigits m = [0] := by
      have := congrArg List.reverse hrev
      simpa using this
    have hv := natDigits_val m
    rw [hl] at hv
    simp [digitsVal] at hv
    exact hm hv.symm
  · rw [if_neg hm, if_neg hn] at h
    have hd := asString_inj _ _ h
    have hmaps : (natDigits m).reverse = (natDigits n).reverse := by
      refine map_digitChar_inj _ _ ?_ ?_ hd
      · intro x hx; exact natDigitsAux_lt m m x (List.mem_reverse.mp hx)
      · intro x hx; exact natDigitsAux_lt n n x (List.mem_reverse.mp hx)
    have hdig : natDigits m = natDigits n := by
      have := congrArg List.reverse hmaps
      simpa using this
    calc m = digitsVal (natDigits m) := (natDigits_val m).symm
    _ = digitsVal (natDigits n) := by rw [hdig]
    _ = n := natDigits_val n

/-- Appending a common prefix to strings is injective. -/
lemma string_append_cancel_left (s a b : String) (h : s ++ a = s ++ b) : a = b := by
  have hd : s.data ++ a.data = s.data ++ b.data := congrArg String.data h
  exact String.ext (List.append_cancel_left hd)

/-- `keySol` is injective: distinct sols get distinct cache keys. -/
lemma keySol_inj (m n : Nat) (h : keySol m = keySol n) : m = n :=
  pyNatStr_inj m n (string_append_cancel_left "sol:" _ _ h)

/-- The latest-key never collides with any sol key. -/
lemma keyLatest_ne_keySol (n : Nat) : keyLatest ≠ keySol n := by
  intro h
  have hd : ("latest" : String).data.head? = ("sol:" ++ pyNatStr n).data.head? :=
    congrArg (fun s => s.data.head?) h
  have hl : ("latest" : String).data.head? = some 'l' := rfl
  have hs : ("sol:" ++ pyNatStr n).data.head? = some 's' := rfl
  rw [hl, hs] at hd
  exact absurd (Option.some.inj hd) (by decide)

/-- Claim C9: the cache-key derivation is deterministic and collision-free —
`/weather/latest` always uses the literal key `"latest"`; `/weather/{sol}`
uses `"sol:" ++ <decimal sol>`, which is injective in the sol number; the two
key families never collide; and the path segments `"5"` and `"05"` parse to
the same integer 5 and hence map to the same cache key. -/
theorem c9_cache_keys :
    keyLatest = "latest"
    ∧ (∀ n : Nat, keySol n = "sol:" ++ pyNatStr n)
    ∧ (∀ n : Nat, keyLatest ≠ keySol n)
    ∧ (∀ m n : Nat, keySol m = keySol n → m = n)
    ∧ parsePathNat "5" = some 5
    ∧ parsePathNat "05" = some 5
    ∧ Option.map keySol (parsePathNat "05") = some (keySol 5) := by
  refine ⟨rfl, fun n => rfl, keyLatest_ne_keySol, keySol_inj, by decide, by decide, by decide⟩

/-- Witness for C9: the injectivity component applied at the concrete sol 5,
discharging its equality hypothesis, alongside the concrete non-collision. -/
theorem c9_cache_keys_witness : keyLatest ≠ keySol 5 ∧ 5 = 5 :=
  ⟨c9_cache_keys.2.2.1 5, c9_cache_keys.2.2.2.1 5 5 rfl⟩

/-- After filtering out every entry with key `k`, a lookup for `k` misses. -/
lemma lookup_filter_self {β : Type} (k : String) (l : List (String × β)) :
    List.lookup k (l.filter (fun e => !(e.1 == k))) = none := by
  induction l with
  | nil => rfl
  | cons e t ih =>
    by_cases hk : e.1 = k
    · simpa [List.filter_cons, hk] using ih
    · have hne : (e.1 == k) = false := beq_eq_false_iff_ne.mpr hk
      have hne2 : (k == e.1) = false := beq_eq_false_iff_ne.mpr (Ne.symm hk)
      simp [List.filter_cons, hne, List.lookup, hne2, ih]

/-- A lookup immediately after `set_cached` finds the new entry. -/
lemma lookup_set_cached (t : Int) (c : Cache) (k : String) (v : JVal) :
    List.lookup k (set_cached t c k v) = some (t, v) := by
  simp [set_cached, List.lookup]

/-- Claim C2: a value stored by `_set_cached` at time `t` is returned
unchanged by `_get_cached` at any time `tq` with `tq - t ≤ TTL` (900 s), and
the cache is left intact; at `tq - t > TTL` the read returns absent and, as a
side effect, removes the entry, so a subsequent lookup for the key misses. -/
theorem c2_cache_ttl (c : Cache) (k : String) (v : JVal) (t tq : Int) :
    (tq - t ≤ TTL → get_cached tq (set_cached t c k v) k = (some v, set_cached t c k v))
    ∧ (tq - t > TTL →
        (get_cached tq (set_cached t c k v) k).1 = none
        ∧ List.lookup k (get_cached tq (set_cached t c k v) k).2 = none) := by
  have hl := lookup_set_cached t c k v
  constructor
  · intro h
    unfold get_cached
    rw [hl]
    simp only [if_neg (by omega : ¬tq - t > TTL)]
  · intro h
    unfold get_cached
    rw [hl]
    simp only [if_pos h]
    exact ⟨by trivial, lookup_filter_self k _⟩

/-- Witness for C2 at `t = 0`, key `"latest"`: a read at 900 succeeds, a read
at 901 misses and leaves no entry behind. -/
theorem c2_cache_ttl_witness :
    get_cached 900 (set_cached 0 [] "latest" (.int 1)) "latest"
      = (some (.int 1), set_cached 0 [] "latest" (.int 1))
    ∧ (get_cached 901 (set_cached 0 [] "latest" (.int 1)) "latest").1 = none
    ∧ List.lookup "latest" (get_cached 901 (set_cached 0 [] "latest" (.int 1)) "latest").2 = none :=
  ⟨(c2_cache_ttl [] "latest" (.int 1) 0 900).1 (by decide),
   ((c2_cache_ttl [] "latest" (.int 1) 0 901).2 (by decide)).1,
   ((c2_cache_ttl [] "latest" (.int 1) 0 901).2 (by decide)).2⟩

/-- Claim C3: `_normalize_maas` is total on dict inputs (the embedding is a
total function, so no input raises); every numeric field whose coercion
fails — missing, non-numeric, or malformed — comes out as `null`; and
normalizing the empty dict yields the record with every non-constant field
`null`. -/
theorem c3_normalize_nullsafe (d : List (String × JVal)) :
    (to_float (pyGet d "min_temp") = none →
      objGet (pyGet (normalize_maas d) "temperature_c") "min" = .null)
    ∧ (to_float (pyGet d "max_temp") = none →
      objGet (pyGet (normalize_maas d) "temperature_c") "max" = .null)
    ∧ (to_float (pyGet d "min_gts_temp") = none →
      objGet (pyGet (normalize_maas d) "temperature_c") "min_gts" = .null)
    ∧ (to_float (pyGet d "max_gts_temp") = none →
      objGet (pyGet (normalize_maas d) "temperature_c") "max_gts" = .null)
    ∧ (to_float (pyGet d "pressure") = none →
      pyGet (normalize_maas d) "pressure_pa" = .null)
    ∧ normalize_maas [] =
      [("source", .str "curiosity_rems_maas"), ("sol", .null), ("earth_date", .null),
       ("season", .null),
       ("temperature_c", .obj [("min", .null), ("max", .null), ("min_gts", .null), ("max_gts", .null)]),
       ("pressure_pa", .null), ("pressure_qual", .null), ("sunrise_local", .null),
       ("sunset_local", .null), ("uv_index", .null), ("atmo_opacity", .null)] := by
  refine ⟨fun h => ?_, fun h => ?_, fun h => ?_, fun h => ?_, fun h => ?_, rfl⟩ <;>
    · simp only [pyGet] at h
      simp [normalize_maas, pyGet, objGet, List.lookup, h, ofOptFloat]

/-- Witness for C3: a malformed `min_temp` string and a missing `pressure`
both normalize to `null` fields. -/
theorem c3_normalize_nullsafe_witness :
    objGet (pyGet (normalize_maas [("min_temp", JVal.str "N/A")]) "temperature_c") "min" = .null
    ∧ pyGet (normalize_maas [("min_temp", JVal.str "N/A")]) "pressure_pa" = .null :=
  ⟨(c3_normalize_nullsafe [("min_temp", JVal.str "N/A")]).1 (by decide),
   (c3_normalize_nullsafe [("min_temp", JVal.str "N/A")]).2.2.2.2.1 (by decide)⟩

/-- Claim C4: for every dict input, the normalized record carries exactly the
fixed field set in the fixed order, with the constant source tag, and the
nested temperature object carries exactly its four fields — regardless of
which fields the input supplied. -/
theorem c4_schema_stable (d : List (String × JVal)) :
    (normalize_maas d).map Prod.fst =
      ["source", "sol", "earth_date", "season", "temperature_c", "pressure_pa",
       "pressure_qual", "sunrise_local", "sunset_local", "uv_index", "atmo_opacity"]
    ∧ pyGet (normalize_maas d) "source" = .str "curiosity_rems_maas"
    ∧ ∃ tkvs, pyGet (normalize_maas d) "temperature_c" = .obj tkvs
        ∧ tkvs.map Prod.fst = ["min", "max", "min_gts", "max_gts"] := by
  refine ⟨rfl, by simp [normalize_maas, pyGet, List.lookup], ?_⟩
  refine ⟨[("min", ofOptFloat (to_float (pyGet d "min_temp"))),
       ("max", ofOptFloat (to_float (pyGet d "max_temp"))),
       ("min_gts", ofOptFloat (to_float (pyGet d "min_gts_temp"))),
       ("max_gts", ofOptFloat (to_float (pyGet d "max_gts_temp")))], ?_, rfl⟩
  simp [normalize_maas, pyGet, List.lookup]

/-- A lookup that hits (returns `some`) leaves the cache unchanged. -/
lemma get_cached_some (now : Int) (c : Cache) (k : String) (v : JVal) (c₂ : Cache)
    (h : get_cached now c k = (some v, c₂)) : c₂ = c := by
  unfold get_cached at h
  cases hl : List.lookup k c with
  | none => rw [hl] at h; simp at h
  | some tv =>
    obtain ⟨t, w⟩ := tv
    rw [hl] at h
    by_cases hT : now - t > TTL
    · simp [hT] at h
    · simp [hT] at h
      exact h.2.symm

/-- When the by-sol fetch path fails, it returns the cache it was given. -/
lemma weatherBySolFetch_error_cache (now : Int) (c₁ : Cache)
    (upstream : String → Except String JVal) (sol : Nat) (e : HError) (c₂ : Cache)
    (h : weatherBySolFetch now c₁ upstream sol = (.error e, c₂)) : c₂ = c₁ := by
  unfold weatherBySolFetch at h
  cases hu : upstream ("/" ++ pyNatStr sol) with
  | error s => rw [hu] at h; simp at h; exact h.2.symm
  | ok data =>
    rw [hu] at h
    by_cases hnd : noData data = true
    · simp [hnd] at h
      exact h.2.symm
    · simp only [Bool.not_eq_true] at hnd
      cases data <;> simp [hnd] at h <;> exact h.2.symm

/-- When the latest fetch path fails, it returns the cache it was given. -/
lemma weatherLatestFetch_error_cache (now : Int) (c₁ : Cache)
    (upstream : String → Except String JVal) (e : HError) (c₂ : Cache)
    (h : weatherLatestFetch now c₁ upstream = (.error e, c₂)) : c₂ = c₁ := by
  unfold weatherLatestFetch at h
  cases hu : upstream "/" with
  | error s => rw [hu] at h; simp at h; exact h.2.symm
  | ok data => rw [hu] at h; cases data <;> simp at h <;> exact h.2.symm

/-- Claim C7: on a cache miss, `/weather/{sol}` returns 502 exactly when the
upstream call fails, 404 exactly when the upstream reports no data (falsy
body, or a dict with a truthy `"error"` — in particular
`{"error": "not found"}`), and the normalized record (which it also caches)
on upstream success with dict data. -/
theorem c7_weather_by_sol_status (now : Int) (c : Cache)
    (upstream : String → Except String JVal) (sol : Nat) (c₁ : Cache)
    (hgc : get_cached now c (keySol sol) = (none, c₁)) :
    (∀ e, upstream ("/" ++ pyNatStr sol) = .error e →
       weather_by_sol now c upstream sol = (.error ⟨502, "Upstream MAAS error: " ++ e⟩, c₁))
    ∧ (∀ data, upstream ("/" ++ pyNatStr sol) = .ok data → noData data = true →
       weather_by_sol now c upstream sol = (.error ⟨404, "No data for sol " ++ pyNatStr sol⟩, c₁))
    ∧ (∀ kvs, upstream ("/" ++ pyNatStr sol) = .ok (.obj kvs) → noData (.obj kvs) = false →
       weather_by_sol now c upstream sol =
         (.ok (.obj (normalize_maas kvs)), set_cached now c₁ (keySol sol) (.obj (normalize_maas kvs))))
    ∧ ((weather_by_sol now c upstream sol).1 = .error ⟨404, "No data for sol " ++ pyNatStr sol⟩
        ↔ ∃ data, upstream ("/" ++ pyNatStr sol) = .ok data ∧ noData data = true) := by
  have hw : weather_by_sol now c upstream sol = weatherBySolFetch now c₁ upstream sol := by
    unfold weather_by_sol
    rw [hgc]
  refine ⟨?_, ?_, ?_, ?_⟩
  · intro e he
    rw [hw]
    unfold weatherBySolFetch
    rw [he]
  · intro data hu hnd
    rw [hw]
    unfold weatherBySolFetch
    rw [hu]
    simp [hnd]
  · intro kvs hu hnd
    rw [hw]
    unfold weatherBySolFetch
    rw [hu]
    simp [hnd]
  · rw [hw]
    unfold weatherBySolFetch
    cases hu : upstream ("/" ++ pyNatStr sol) with
    | error s => simp
    | ok data =>
      by_cases hnd : noData data = true
      · simp [hnd]
      · simp only [Bool.not_eq_true] at hnd
        cases data <;> simp [hnd]

/-- Witness for C7: an empty cache and an upstream answering
`{"error": "not found"}` produce the 404 response. -/
theorem c7_weather_by_sol_status_witness :
    weather_by_sol 0 [] (fun _ => .ok (.obj [("error", .str "not found")])) 5
      = (.error ⟨404, "No data for sol " ++ pyNatStr 5⟩, []) :=
  (c7_weather_by_sol_status 0 [] (fun _ => .ok (.obj [("error", .str "not found")])) 5 [] rfl).2.1
    (.obj [("error", .str "not found")]) rfl (by decide)

/-- C10 counterexample: with a stale entry for `"sol:5"` stored at time 0 and
a failing upstream at time 1000, `/weather/5` fails with 502 — and the stale
entry has been removed by the lookup's lazy eviction, so the cache did change
on a failing request, contradicting the claim that it is left completely
unchanged. -/
theorem c10_counterexample :
    weather_by_sol 1000 [("sol:5", 0, JVal.int 7)] (fun _ => .error "down") 5
      = (.error ⟨502, "Upstream MAAS error: down"⟩, [])
    ∧ List.lookup "sol:5" ([("sol:5", 0, JVal.int 7)] : Cache) = some (0, JVal.int 7)
    ∧ List.lookup "sol:5" ([] : Cache) = none :=
  ⟨rfl, rfl, rfl⟩

/-- Claim C10, amended: when `weather_by_sol` or `weather_latest` fails (502
or 404), no entry is created or replaced — `_set_cached` runs only after a
successful fetch-and-normalize — and the final cache is exactly the one
`_get_cached` left behind; the only possible change is that lookup's lazy
eviction of an expired entry, so if the key was absent the cache really is
unchanged. -/
theorem c10_error_cache_eviction_only (now : Int) (c : Cache)
    (upstream : String → Except String JVal) (sol : Nat) :
    (∀ e c₂, weather_by_sol now c upstream sol = (.error e, c₂) →
       c₂ = (get_cached now c (keySol sol)).2
       ∧ (List.lookup (keySol sol) c = none → c₂ = c))
    ∧ (∀ e c₂, weather_latest now c upstream = (.error e, c₂) →
       c₂ = (get_cached now c keyLatest).2
       ∧ (List.lookup keyLatest c = none → c₂ = c)) := by
  constructor
  · intro e c₂ h
    rcases hgc : get_cached now c (keySol sol) with ⟨o, c₁⟩
    unfold weather_by_sol at h
    rw [hgc] at h
    cases o with
    | some v =>
      have hc₁ : c₁ = c := get_cached_some now c (keySol sol) v c₁ hgc
      by_cases ht : truthy v = true
      · simp [ht] at h
      · simp only [Bool.not_eq_true] at ht
        simp only [ht, Bool.false_eq_true, if_false] at h
        have := weatherBySolFetch_error_cache now c₁ upstream sol e c₂ h
        constructor
        · rw [this]
        · intro _; rw [this, hc₁]
    | none =>
      have := weatherBySolFetch_error_cache now c₁ upstream sol e c₂ h
      constructor
      · rw [this]
      · intro hnone
        have hcc : get_cached now c (keySol sol) = (none, c) := by
          unfold get_cached
          rw [hnone]
        rw [hcc] at hgc
        have : c₂ = c₁ := ‹c₂ = c₁›
        rw [this, (Prod.mk.injEq _ _ _ _).mp hgc.symm |>.2]
  · intro e c₂ h
    rcases hgc : get_cached now c keyLatest with ⟨o, c₁⟩
    unfold weather_latest at h
    rw [hgc] at h
    cases o with
    | some v =>
      have hc₁ : c₁ = c := get_cached_some now c keyLatest v c₁ hgc
      by_cases ht : truthy v = true
      · simp [ht] at h
      · simp only [Bool.not_eq_true] at ht
        simp only [ht, Bool.false_eq_true, if_false] at h
        have := weatherLatestFetch_error_cache now c₁ upstream e c₂ h
        constructor
        · rw [this]
        · intro _; rw [this, hc₁]
    | none =>
      have := weatherLatestFetch_error_cache now c₁ upstream e c₂ h
      constructor
      · rw [this]
      · intro hnone
        have hcc : get_cached now c keyLatest = (none, c) := by
          unfold get_cached
          rw [hnone]
        rw [hcc] at hgc
        have : c₂ = c₁ := ‹c₂ = c₁›
        rw [this, (Prod.mk.injEq _ _ _ _).mp hgc.symm |>.2]

/-- Witness for the amended C10 at the concrete failing run of the
counterexample: the final cache is exactly the lookup's eviction result. -/
theorem c10_error_cache_eviction_only_witness :
    ([] : Cache) = (get_cached 1000 [("sol:5", 0, JVal.int 7)] (keySol 5)).2 :=
  ((c10_error_cache_eviction_only 1000 [("sol:5", 0, JVal.int 7)] (fun _ => .error "down") 5).1
    ⟨502, "Upstream MAAS error: down"⟩ [] rfl).1

/-- C1 counterexample: with an empty cache and a failing upstream,
`GET /ai/brief/latest` does return an error response — the 502 from the
weather fetch propagates, because `weather_latest()` is called outside the
`try` block, so the response is not the fallback summary object. -/
theorem c1_counterexample :
    ai_brief_latest 0 [] ⟨none, none, none⟩ (fun _ => .error "boom") (.error ())
      = (.error ⟨502, "Upstream MAAS error: boom"⟩, []) := rfl

/-- Claim C1, amended: `/ai/brief/latest` absorbs every failure of the LLM
path — whenever the weather lookup succeeds the endpoint returns a summary
object (never an error), and any `_call_llm` failure yields the
`{"mode": "fallback"}` object — but a failure of the upstream weather fetch
itself is not absorbed: the weather lookup's `HTTPException` propagates
unchanged to the client. -/
theorem c1_llm_errors_absorbed (now : Int) (c : Cache) (cfg : LlmCfg)
    (upstream : String → Except String JVal) (post : Except Unit JVal) :
    (∀ d c₁, weather_latest now c upstream = (.ok d, c₁) →
       (∃ b, ai_brief_latest now c cfg upstream post = (.ok b, c₁))
       ∧ (∀ err, call_llm cfg (prompt_from_weather d) post = .error err →
           ai_brief_latest now c cfg upstream post = (.ok ⟨"fallback", format_brief d⟩, c₁)))
    ∧ (∀ e c₁, weather_latest now c upstream = (.error e, c₁) →
       ai_brief_latest now c cfg upstream post = (.error e, c₁)) := by
  constructor
  · intro d c₁ hw
    constructor
    · cases hc : call_llm cfg (prompt_from_weather d) post with
      | ok s =>
        refine ⟨⟨"llm", s⟩, ?_⟩
        unfold ai_brief_latest
        rw [hw]
        simp only [hc]
      | error err =>
        refine ⟨⟨"fallback", format_brief d⟩, ?_⟩
        unfold ai_brief_latest
        rw [hw]
        simp only [hc]
    · intro err hc
      unfold ai_brief_latest
      rw [hw]
      simp only [hc]
  · intro e c₁ hw
    unfold ai_brief_latest
    rw [hw]

/-- Witness for the amended C1: unconfigured LLM, upstream up — the endpoint
returns the fallback object and the 502 branch is exercised by the
counterexample input shape. -/
theorem c1_llm_errors_absorbed_witness :
    ai_brief_latest 0 [] ⟨none, none, none⟩ (fun _ => .ok (.obj [])) (.error ())
      = (.ok ⟨"fallback", format_brief (.obj (normalize_maas []))⟩,
         set_cached 0 [] keyLatest (.obj (normalize_maas []))) :=
  ((c1_llm_errors_absorbed 0 [] ⟨none, none, none⟩ (fun _ => .ok (.obj [])) (.error ())).1
    (.obj (normalize_maas [])) (set_cached 0 [] keyLatest (.obj (normalize_maas []))) rfl).2
    .notConfigured rfl

/-- Claim C6: if any of the three LLM configuration values is absent (or
empty, which Python's truthiness treats the same), `_call_llm` raises exactly
as on a call failure, so both summary endpoints answer with the deterministic
fallback summary tagged `"fallback"`, and no error reaches the client from
the LLM path. -/
theorem c6_missing_config_fallback (now : Int) (c : Cache) (cfg : LlmCfg)
    (upstream : String → Except String JVal) (post : Except Unit JVal) (sol : Nat)
    (hcfg : llmConfigured cfg = false) :
    (∀ d c₁, weather_latest now c upstream = (.ok d, c₁) →
       ai_brief_latest now c cfg upstream post = (.ok ⟨"fallback", format_brief d⟩, c₁))
    ∧ (∀ d c₁, weather_by_sol now c upstream sol = (.ok d, c₁) →
       ai_brief_by_sol now c cfg upstream post sol = (.ok ⟨"fallback", format_brief d⟩, c₁)) := by
  have hc : ∀ p : String, call_llm cfg p post = .error .notConfigured := by
    intro p
    unfold call_llm
    rw [hcfg]
    rfl
  constructor
  · intro d c₁ hw
    unfold ai_brief_latest
    rw [hw]
    simp only [hc]
  · intro d c₁ hw
    unfold ai_brief_by_sol
    rw [hw]
    simp only [hc]

/-- Witness for C6: `LLM_API_KEY` unset (and, for good measure, each other
variant checked concretely elsewhere), upstream healthy — both endpoints
answer in fallback mode. -/
theorem c6_missing_config_fallback_witness :
    ai_brief_latest 0 [] ⟨some "http://llm", none, some "gpt"⟩ (fun _ => .ok (.obj [])) (.ok (.obj []))
      = (.ok ⟨"fallback", format_brief (.obj (normalize_maas []))⟩,
         set_cached 0 [] keyLatest (.obj (normalize_maas []))) :=
  (c6_missing_config_fallback 0 [] ⟨some "http://llm", none, some "gpt"⟩
      (fun _ => .ok (.obj [])) (.ok (.obj [])) 0 rfl).1
    (.obj (normalize_maas [])) (set_cached 0 [] keyLatest (.obj (normalize_maas []))) rfl

/-- C5 counterexample: with the LLM fully configured and a 2xx response whose
JSON body `{}` lacks the expected `choices[0].message.content`, the endpoint
answers with mode `"llm"` (text = `str(data)` = `"{}"`), not `"fallback"` —
the malformed-body case inside `_call_llm` returns normally instead of
raising. -/
theorem c5_counterexample :
    ai_brief_latest 0 [] ⟨some "u", some "k", some "m"⟩ (fun _ => .ok (.obj [])) (.ok (.obj []))
      = (.ok ⟨"llm", "\x7b\x7d"⟩, set_cached 0 [] keyLatest (.obj (normalize_maas []))) := rfl

/-- Claim C5, amended: when the 2xx LLM response body fails to JSON-decode
(or the call fails at the network/status level) the summary is the
deterministic fallback tagged `"fallback"`; but when the body JSON-decodes
and merely lacks the expected content path, `_call_llm` returns the
stringified body, so the result is tagged `"llm"` with `str(data)` as text. -/
theorem c5_malformed_body (now : Int) (c : Cache) (cfg : LlmCfg)
    (upstream : String → Except String JVal)
    (hcfg : llmConfigured cfg = true) :
    (∀ d c₁ body, weather_latest now c upstream = (.ok d, c₁) → extractContent body = none →
       ai_brief_latest now c cfg upstream (.ok body) = (.ok ⟨"llm", pyInterp body⟩, c₁))
    ∧ (∀ d c₁, weather_latest now c upstream = (.ok d, c₁) →
       ai_brief_latest now c cfg upstream (.error ()) = (.ok ⟨"fallback", format_brief d⟩, c₁)) := by
  constructor
  · intro d c₁ body hw hext
    have hc : call_llm cfg (prompt_from_weather d) (.ok body) = .ok (pyInterp body) := by
      unfold call_llm
      rw [hcfg]
      simp only [hext]
      rfl
    unfold ai_brief_latest
    rw [hw]
    simp only [hc]
  · intro d c₁ hw
    have hc : call_llm cfg (prompt_from_weather d) (.error ()) = .error .httpError := by
      unfold call_llm
      rw [hcfg]
      rfl
    unfold ai_brief_latest
    rw [hw]
    simp only [hc]

/-- Witness for the amended C5 at a concrete configured run: a body `{}`
yields mode `"llm"`, a failed POST yields the fallback. -/
theorem c5_malformed_body_witness :
    ai_brief_latest 0 [] ⟨some "u", some "k", some "m"⟩ (fun _ => .ok (.obj [])) (.ok (.obj []))
      = (.ok ⟨"llm", pyInterp (.obj [])⟩, set_cached 0 [] keyLatest (.obj (normalize_maas [])))
    ∧ ai_brief_latest 0 [] ⟨some "u", some "k", some "m"⟩ (fun _ => .ok (.obj [])) (.error ())
      = (.ok ⟨"fallback", format_brief (.obj (normalize_maas []))⟩,
         set_cached 0 [] keyLatest (.obj (normalize_maas []))) :=
  ⟨(c5_malformed_body 0 [] ⟨some "u", some "k", some "m"⟩ (fun _ => .ok (.obj [])) rfl).1
      (.obj (normalize_maas [])) (set_cached 0 [] keyLatest (.obj (normalize_maas []))) (.obj []) rfl rfl,
   (c5_malformed_body 0 [] ⟨some "u", some "k", some "m"⟩ (fun _ => .ok (.obj [])) rfl).2
      (.obj (normalize_maas [])) (set_cached 0 [] keyLatest (.obj (normalize_maas []))) rfl⟩

/-- Reading back a numeric field stored via `ofOptFloat` recovers the
coercion result. -/
lemma asFloat?_ofOptFloat (o : Option Rat) : asFloat? (ofOptFloat o) = o := by
  cases o <;> rfl

/-- C8 counterexample: a normalized record whose pressure is null but whose
season string is `"Pressure: low"` produces a summary that does contain the
substring `"Pressure:"` — the claim's null-pressure-implies-no-substring
guarantee fails because other fields' text is interpolated verbatim. -/
theorem c8_counterexample :
    pyGet (normalize_maas [("season", JVal.str "Pressure: low")]) "pressure_pa" = JVal.null
    ∧ strContains (format_brief (.obj (normalize_maas [("season", JVal.str "Pressure: low")])))
        "Pressure:" = true :=
  ⟨rfl, rfl⟩

/-- Claim C8, amended: on every normalized record the fallback summary is
exactly the specified clauses joined by single spaces in the fixed order —
leading clause always; two-bound temperature clause when both bounds are
present and the `?` form when exactly one is; pressure (rounded to integer),
season, opacity and UV clauses exactly when the field is non-null/truthy.
When pressure is null no clause of the summary starts with `"Pressure:"`
(though the full string may still contain `"Pressure:"` inside another
field's interpolated text, as the counterexample shows). -/
theorem c8_fallback_template (raw : List (String × JVal)) :
    format_brief (.obj (normalize_maas raw))
      = String.intercalate " " (brief_clauses (.obj (normalize_maas raw)))
    ∧ (to_float (pyGet raw "pressure") = none →
        (brief_clauses (.obj (normalize_maas raw))).all
          (fun s => !hasPre s.toList ("Pressure:".toList)) = true) := by
  constructor
  · unfold format_brief brief_clauses
    rcases h1 : to_float (pyGet raw "min_temp") with _ | a <;>
      rcases h2 : to_float (pyGet raw "max_temp") with _ | b <;>
      rcases h3 : to_float (pyGet raw "pressure") with _ | p <;>
      simp [normalize_maas, pyGet, objGet, List.lookup, truthy, asFloat?_ofOptFloat, h1, h2, h3,
        List.append_assoc]
  · intro hp
    simp only [pyGet] at hp
    rcases h1 : to_float ((List.lookup "min_temp" raw).getD JVal.null) with _ | a <;>
      rcases h2 : to_float ((List.lookup "max_temp" raw).getD JVal.null) with _ | b <;>
      by_cases hS : truthy ((List.lookup "season" raw).getD JVal.null) <;>
      by_cases hA : truthy ((List.lookup "atmo_opacity" raw).getD JVal.null) <;>
      by_cases hU : truthy ((List.lookup "local_uv_irradiance_index" raw).getD JVal.null) <;>
      simp [brief_clauses, normalize_maas, pyGet, objGet, List.lookup, asFloat?_ofOptFloat,
        h1, h2, hp, hS, hA, hU, hasPre]

/-- Witness for the amended C8 at a concrete record (sol only, pressure
missing): the summary equals the joined clause list, and no clause starts
with `"Pressure:"`. -/
theorem c8_fallback_template_witness :
    format_brief (.obj (normalize_maas [("sol", JVal.int 4100)]))
      = String.intercalate " " (brief_clauses (.obj (normalize_maas [("sol", JVal.int 4100)])))
    ∧ (brief_clauses (.obj (normalize_maas [("sol", JVal.int 4100)]))).all
        (fun s => !hasPre s.toList ("Pressure:".toList)) = true :=
  ⟨(c8_fallback_template [("sol", JVal.int 4100)]).1,
   (c8_fallback_template [("sol", JVal.int 4100)]).2 rfl⟩
